import Mathlib

/-!
Verification development for the Franka-Teach teleoperation core: a shallow
embedding of the retargeting function and teleop state machine of
frankateach/teleoperator.py and of the observation assembly of
franka-env/franka_env/envs/franka_env.py.  Numpy float arrays are embedded
as exact rational vectors and matrices.
-/

namespace FrankaTeach

/-- 4×4 matrices over ℚ, embedding the numpy 4×4 homogeneous affine arrays. -/
abbrev M4 := Matrix (Fin 4) (Fin 4) ℚ

/-- 3×3 matrices over ℚ (rotation blocks). -/
abbrev M3 := Matrix (Fin 3) (Fin 3) ℚ

/-- Length-3 vectors (positions / translations). -/
abbrev V3 := Fin 3 → ℚ

/-- Length-4 vectors (quaternions). -/
abbrev V4 := Fin 4 → ℚ

/-- Embedding of numpy.linalg.pinv as imported at teleoperator.py:23 and used at
lines 27, 30 and 31.  On an invertible matrix the Moore–Penrose pseudo-inverse
equals the true inverse, and on the all-zero matrix both are the zero matrix;
every evaluation of pinv in this development is on such a matrix, where the
formula below agrees with numpy's pinv.  (On other singular matrices the
Moore–Penrose pseudo-inverse would differ from this formula; no statement in
this file evaluates pinv there.) -/
def pinv (A : M4) : M4 := if A.det = 0 then 0 else A.det⁻¹ • A.adjugate

theorem pinv_eq_inv (A : M4) : pinv A = A⁻¹ := by
  rw [Matrix.inv_def, Ring.inverse_eq_inv]
  unfold pinv
  split
  · rename_i h
    rw [h, inv_zero, zero_smul]
  · rfl

/-- The top-left 3×3 block of a 4×4 matrix, i.e. numpy's A[:3, :3]. -/
def topLeft33 (A : M4) : M3 := Matrix.of fun i j => A i.castSucc j.castSucc

/-- The top-right 3×1 block of a 4×4 matrix, i.e. numpy's A[:3, 3]. -/
def topRight3 (A : M4) : V3 := fun i => A i.castSucc 3

/-- Embedding of the np.block call at teleoperator.py:34-36: assemble a 3×3
rotation block and a 3×1 translation block into a homogeneous 4×4 matrix with
bottom row [0, 0, 0, 1]. -/
def np_block (R : M3) (t : V3) : M4 :=
  Matrix.of fun i j =>
    if hi : (i : ℕ) < 3 then
      if hj : (j : ℕ) < 3 then R ⟨i, hi⟩ ⟨j, hj⟩ else t ⟨i, hi⟩
    else if (j : ℕ) < 3 then 0 else 1

theorem topLeft33_np_block (R : M3) (t : V3) : topLeft33 (np_block R t) = R := by
  funext i j
  fin_cases i <;> fin_cases j <;> rfl

theorem topRight3_np_block (R : M3) (t : V3) : topRight3 (np_block R t) = t := by
  funext i
  fin_cases i <;> rfl

theorem np_block_bottom (R : M3) (t : V3) :
    ∀ j, np_block R t 3 j = ![(0 : ℚ), 0, 0, 1] j := by
  intro j
  fin_cases j <;> rfl

/-- Embedding of get_relative_affine (teleoperator.py:26-38).  The frame
alignment constants H_R_V and H_R_V_star come from frankateach.constants,
which is not under src/; per the spec (§4.1, §6) they are fixed calibration
matrices, so they are taken here as explicit parameters.  The source's
H_V_des = pinv(init_affine) @ current_affine is inlined. -/
def get_relative_affine (hRV hRVstar init_affine current_affine : M4) : M4 :=
  np_block
    (topLeft33 (pinv hRV * (pinv init_affine * current_affine) * hRV))
    (topRight3 (pinv hRVstar * (pinv init_affine * current_affine) * hRVstar))

/-- C1: for every invertible 4×4 homogeneous affine init_affine and every 4×4
homogeneous affine current_affine (with the calibration matrices H_R_V and
H_R_V_star invertible, as the fixed frame-alignment rotations are),
get_relative_affine returns the matrix whose top-left 3×3 block equals the
top-left 3×3 of inverse(H_R_V) @ (inverse(init_affine) @ current_affine)
@ H_R_V, whose top-right 3×1 block equals the top-right 3×1 of
inverse(H_R_V_star) @ (inverse(init_affine) @ current_affine) @ H_R_V_star,
and whose bottom row is [0, 0, 0, 1]. -/
theorem C1_relative_affine_blocks (hRV hRVstar init_affine current_affine : M4)
    (hinit : IsUnit init_affine.det) (hv : IsUnit hRV.det) (hw : IsUnit hRVstar.det) :
    topLeft33 (get_relative_affine hRV hRVstar init_affine current_affine)
        = topLeft33 (hRV⁻¹ * (init_affine⁻¹ * current_affine) * hRV)
      ∧ topRight3 (get_relative_affine hRV hRVstar init_affine current_affine)
        = topRight3 (hRVstar⁻¹ * (init_affine⁻¹ * current_affine) * hRVstar)
      ∧ ∀ j, get_relative_affine hRV hRVstar init_affine current_affine 3 j
        = ![(0 : ℚ), 0, 0, 1] j := by
  unfold get_relative_affine
  simp only [pinv_eq_inv]
  exact ⟨topLeft33_np_block _ _, topRight3_np_block _ _, np_block_bottom _ _⟩

theorem C1_witness :
    (IsUnit (Matrix.det (1 : M4)) ∧ IsUnit (Matrix.det (1 : M4)) ∧ IsUnit (Matrix.det (1 : M4)))
    ∧ (topLeft33 (get_relative_affine 1 1 1 1)
        = topLeft33 ((1 : M4)⁻¹ * ((1 : M4)⁻¹ * 1) * 1)
      ∧ topRight3 (get_relative_affine 1 1 1 1)
        = topRight3 ((1 : M4)⁻¹ * ((1 : M4)⁻¹ * 1) * 1)
      ∧ ∀ j, get_relative_affine 1 1 1 1 3 j = ![(0 : ℚ), 0, 0, 1] j) :=
  ⟨⟨by simp, by simp, by simp⟩,
   C1_relative_affine_blocks 1 1 1 1 (by simp) (by simp) (by simp)⟩

/-- C7: for every invertible 4×4 affine A (with the fixed calibration matrices
invertible), get_relative_affine A A is exactly the 4×4 identity. -/
theorem C7_relative_affine_self_is_identity (hRV hRVstar A : M4)
    (hA : IsUnit A.det) (hv : IsUnit hRV.det) (hw : IsUnit hRVstar.det) :
    get_relative_affine hRV hRVstar A A = 1 := by
  unfold get_relative_affine
  simp only [pinv_eq_inv]
  rw [Matrix.nonsing_inv_mul A hA]
  simp only [mul_one]
  rw [Matrix.nonsing_inv_mul hRV hv, Matrix.nonsing_inv_mul hRVstar hw]
  decide

theorem C7_witness :
    (IsUnit (Matrix.det (1 : M4)) ∧ IsUnit (Matrix.det (1 : M4)) ∧ IsUnit (Matrix.det (1 : M4)))
    ∧ get_relative_affine 1 1 1 1 = 1 :=
  ⟨⟨by simp, by simp, by simp⟩,
   C7_relative_affine_self_is_identity 1 1 1 (by simp) (by simp) (by simp)⟩

theorem pinv_zero : pinv (0 : M4) = 0 := by
  unfold pinv
  rw [if_pos (Matrix.det_zero ⟨0⟩)]

/-- C6 counterexample: called with the singular (all-zero) init_affine, the
retargeting function does not fail: numpy's pinv silently returns the
pseudo-inverse (zero for the zero matrix) and get_relative_affine returns a
well-formed defaulted matrix (here, zero blocks assembled with bottom row
[0,0,0,1]).  This refutes the claim that a singular init_affine is reported as
an explicit error. -/
theorem C6_counterexample :
    get_relative_affine 1 1 (0 : M4) 1 = np_block 0 0 := by
  unfold get_relative_affine
  simp only [pinv_zero, zero_mul, mul_zero]
  congr 1

/-- C6 amended: get_relative_affine never fails: for every input (singular
init_affine included) it silently returns the pseudo-inverse-based result,
a total well-formed homogeneous matrix with bottom row [0, 0, 0, 1]; in
particular at the singular all-zero init_affine it returns the defaulted
matrix with zero rotation and translation blocks. -/
theorem C6_singular_init_silently_defaults :
    (∀ hRV hRVstar init_affine current_affine : M4,
      ∀ j, get_relative_affine hRV hRVstar init_affine current_affine 3 j
        = ![(0 : ℚ), 0, 0, 1] j)
    ∧ get_relative_affine 1 1 (0 : M4) 1 = np_block 0 0 := by
  constructor
  · intro hRV hRVstar init_affine current_affine j
    exact np_block_bottom _ _ j
  · unfold get_relative_affine
    simp only [pinv_zero, zero_mul, mul_zero]
    congr 1

/-- Gripper command values.  Modelled from the spec: GRIPPER_OPEN and
GRIPPER_CLOSE come from frankateach.constants, which is not under src/; the
spec (§3 GripperState) describes a binary enum, and teleoperator.py only
assigns and compares these values, so an enum embeds them faithfully. -/
inductive Gripper | GRIPPER_OPEN | GRIPPER_CLOSE
deriving DecidableEq

/-- Python exceptions surfaced by the embedded code paths. -/
inductive PyErr | attributeError | typeError | keyError
deriving DecidableEq

/-- Controller sample, one per poll (oculus_stick producer is not under src/;
fields are exactly those teleoperator.py reads: right_a, right_b,
right_affine, right_index_trigger, right_hand_trigger). -/
structure ControllerState where
  right_a : Bool
  right_b : Bool
  right_affine : M4
  right_index_trigger : ℚ
  right_hand_trigger : ℚ

/-- Robot state sample.  Modelled from the spec: frankateach.messages is not
under src/; per §3 RobotState carries position and orientation (the gripper
scalar and timestamp are not read by the teleoperator, so they are omitted). -/
structure FrankaState where
  pos : V3
  quat : V4

/-- Action sent over the actuation channel (frankateach.messages FrankaAction,
not under src/; fields are the ones teleoperator.py constructs at lines 68-74
and 147-153; the wall-clock timestamp is omitted). -/
structure FrankaAction where
  pos : V3
  quat : V4
  gripper : Gripper
  reset : Bool

/-- Mutable session state of FrankaOperator (teleoperator.py:57-61, 81-84).
home_rot and home_pos are unset before the first frame; they are carried as
plain fields, and every theorem below about a post-handshake tick assumes
is_first_frame = false. -/
structure OperatorState where
  is_first_frame : Bool
  gripper_state : Gripper
  start_teleop : Bool
  init_affine : Option M4
  home_rot : M3
  home_pos : V3

/-- Calibration constants and conversion functions of the teleoperator.
Modelled from the spec: frankateach.constants (H_R_V, H_R_V_star,
ROBOT_WORKSPACE_MIN/MAX) and deoxys.utils.transform_utils (quat2mat,
mat2quat) are not under src/; per §6 they are fixed configuration inputs, and
per §3 the quaternion/matrix conversions are external lossless converters, so
both are taken as parameters of the embedding. -/
structure Config where
  H_R_V : M4
  H_R_V_star : M4
  ROBOT_WORKSPACE_MIN : V3
  ROBOT_WORKSPACE_MAX : V3
  quat2mat : V4 → M3
  mat2quat : M3 → V4

/-- Result of one _apply_retargeted_angles tick: the exception it raised (if
any), the operator state after it, and the actions it sent over the control
socket, in order. -/
structure TickResult where
  err : Option PyErr
  state : OperatorState
  sent : List FrankaAction

/-- Embedding of np.clip(x, a_min, a_max) (teleoperator.py:126-130):
componentwise maximum with the lower bound, then minimum with the upper. -/
def np_clip (x lo hi : V3) : V3 := fun i => min (hi i) (max (lo i) (x i))

/-- The reset handshake action (teleoperator.py:68-74). -/
def reset_action : FrankaAction :=
  { pos := fun _ => 0, quat := fun _ => 0, gripper := Gripper.GRIPPER_OPEN, reset := true }

/-- The relative affine used while teleoperation is off (teleoperator.py:103-105):
np.zeros((4,4)) with entry [3,3] set to 1. -/
def idle_relative_affine : M4 :=
  Matrix.of fun i j => if (i : ℕ) = 3 ∧ (j : ℕ) = 3 then 1 else 0

/-- First-frame homing (teleoperator.py:66-85): capture HomePose from the robot
state received after the reset handshake and leave the first-frame mode. -/
def first_frame_update (cfg : Config) (rs : FrankaState) (s : OperatorState) : OperatorState :=
  if s.is_first_frame then
    { s with home_rot := cfg.quat2mat rs.quat, home_pos := rs.pos, is_first_frame := false }
  else s

/-- Engage transition (teleoperator.py:86-88): on right_a, start teleop and
capture init_affine from the current controller pose. -/
def engage_update (cs : ControllerState) (s : OperatorState) : OperatorState :=
  if cs.right_a then
    { s with start_teleop := true, init_affine := some cs.right_affine }
  else s

/-- State after the disengage branch body (teleoperator.py:90-97): teleop off,
init_affine cleared, HomePose recaptured from the fresh robot state. -/
def disengaged_state (cfg : Config) (rs : FrankaState) (s : OperatorState) : OperatorState :=
  { s with start_teleop := false, init_affine := none,
           home_rot := cfg.quat2mat rs.quat, home_pos := rs.pos }

/-- Disengage transition (teleoperator.py:89-97): on right_b, stop teleop,
clear init_affine and recapture HomePose from a fresh robot state. -/
def disengage_update (cfg : Config) (rs : FrankaState) (cs : ControllerState)
    (s : OperatorState) : OperatorState :=
  if cs.right_b then disengaged_state cfg rs s else s

/-- Gripper update (teleoperator.py:107-114): index trigger above 0.5 requests
CLOSE, else hand trigger above 0.5 requests OPEN, else no request; a request
differing from the current state overwrites it. -/
def gripper_request (cs : ControllerState) : Option Gripper :=
  if (1 : ℚ)/2 < cs.right_index_trigger then some Gripper.GRIPPER_CLOSE
  else if (1 : ℚ)/2 < cs.right_hand_trigger then some Gripper.GRIPPER_OPEN
  else none

/-- Second half of the gripper update (teleoperator.py:113-114): a request
differing from the current state overwrites it. -/
def gripper_update (cs : ControllerState) (s : OperatorState) : OperatorState :=
  match gripper_request cs with
  | some g => if g ≠ s.gripper_state then { s with gripper_state := g } else s
  | none => s

/-- Action built while engaged (teleoperator.py:116-130): target position is
HomePose.position plus the relative translation, clipped into the workspace
box; target rotation is HomePose.rotation times the relative rotation,
converted to a quaternion. -/
def engaged_action (cfg : Config) (relative_affine : M4) (s : OperatorState) : FrankaAction :=
  let relative_pos := topRight3 relative_affine
  let relative_rot := topLeft33 relative_affine
  let target_pos := fun i => s.home_pos i + relative_pos i
  let target_quat := cfg.mat2quat (s.home_rot * relative_rot)
  { pos := np_clip target_pos cfg.ROBOT_WORKSPACE_MIN cfg.ROBOT_WORKSPACE_MAX,
    quat := target_quat, gripper := s.gripper_state, reset := false }

/-- Action built while idle (teleoperator.py:132-136): hold HomePose. -/
def idle_action (cfg : Config) (s : OperatorState) : FrankaAction :=
  { pos := s.home_pos, quat := cfg.mat2quat s.home_rot,
    gripper := s.gripper_state, reset := false }

/-- One tick of _apply_retargeted_angles (teleoperator.py:63-156), in source
order: first-frame handshake; read of the controller sample's fields (a tick
handed no sample, i.e. None, raises AttributeError at the first field access,
line 86 — the subscriber itself, not under src/, blocks per spec §6 and hands
the tick one sample per call); engage then disengage flags; relative affine
(calling get_relative_affine with init_affine = None would raise inside
numpy's pinv, embedded as TypeError); gripper update; one FrankaAction sent.
The two FrankaState arguments feed the two robot-state receives (first-frame
homing, line 79, and disengage re-homing, line 93). -/
def tick (cfg : Config) (controller_state : Option ControllerState)
    (rs_first rs_disengage : FrankaState) (s0 : OperatorState) : TickResult :=
  let s1 := first_frame_update cfg rs_first s0
  let sent0 : List FrankaAction := if s0.is_first_frame then [reset_action] else []
  match controller_state with
  | none => ⟨some PyErr.attributeError, s1, sent0⟩
  | some cs =>
    let s3 := disengage_update cfg rs_disengage cs (engage_update cs s1)
    let relE : Except PyErr M4 :=
      if s3.start_teleop then
        match s3.init_affine with
        | some ia => Except.ok (get_relative_affine cfg.H_R_V cfg.H_R_V_star ia cs.right_affine)
        | none => Except.error PyErr.typeError
      else Except.ok idle_relative_affine
    match relE with
    | Except.error e => ⟨some e, s3, sent0⟩
    | Except.ok relative_affine =>
      let s4 := gripper_update cs s3
      let action :=
        if s4.start_teleop then engaged_action cfg relative_affine s4
        else idle_action cfg s4
      ⟨none, s4, sent0 ++ [action]⟩

theorem gripper_update_home_pos (cs : ControllerState) (s : OperatorState) :
    (gripper_update cs s).home_pos = s.home_pos := by
  unfold gripper_update
  split
  · split <;> rfl
  · rfl

theorem gripper_update_home_rot (cs : ControllerState) (s : OperatorState) :
    (gripper_update cs s).home_rot = s.home_rot := by
  unfold gripper_update
  split
  · split <;> rfl
  · rfl

theorem gripper_update_start_teleop (cs : ControllerState) (s : OperatorState) :
    (gripper_update cs s).start_teleop = s.start_teleop := by
  unfold gripper_update
  split
  · split <;> rfl
  · rfl

theorem gripper_update_init_affine (cs : ControllerState) (s : OperatorState) :
    (gripper_update cs s).init_affine = s.init_affine := by
  unfold gripper_update
  split
  · split <;> rfl
  · rfl

theorem gripper_update_is_first_frame (cs : ControllerState) (s : OperatorState) :
    (gripper_update cs s).is_first_frame = s.is_first_frame := by
  unfold gripper_update
  split
  · split <;> rfl
  · rfl

theorem engage_update_home_pos (cs : ControllerState) (s : OperatorState) :
    (engage_update cs s).home_pos = s.home_pos := by
  unfold engage_update
  split <;> rfl

theorem engage_update_home_rot (cs : ControllerState) (s : OperatorState) :
    (engage_update cs s).home_rot = s.home_rot := by
  unfold engage_update
  split <;> rfl

theorem engage_update_gripper (cs : ControllerState) (s : OperatorState) :
    (engage_update cs s).gripper_state = s.gripper_state := by
  unfold engage_update
  split <;> rfl

theorem disengage_update_gripper (cfg : Config) (rs : FrankaState) (cs : ControllerState)
    (s : OperatorState) :
    (disengage_update cfg rs cs s).gripper_state = s.gripper_state := by
  unfold disengage_update
  split <;> rfl

theorem first_frame_update_gripper (cfg : Config) (rs : FrankaState) (s : OperatorState) :
    (first_frame_update cfg rs s).gripper_state = s.gripper_state := by
  unfold first_frame_update
  split <;> rfl

theorem np_clip_spec (lo hi v : ℚ) (h : lo ≤ hi) :
    (lo ≤ v → v ≤ hi → min hi (max lo v) = v) ∧
    (v < lo → min hi (max lo v) = lo) ∧
    (hi < v → min hi (max lo v) = hi) := by
  refine ⟨fun h1 h2 => ?_, fun h1 => ?_, fun h1 => ?_⟩
  · rw [max_eq_right h1, min_eq_right h2]
  · rw [max_eq_left h1.le, min_eq_right h]
  · rw [max_eq_right (h.trans h1.le), min_eq_left h1.le]

/-- C2: on every post-handshake tick on which the state machine is engaged
(engaging on this tick or already engaged, and not disengaging), the single
action sent commands a target position equal to HomePose.position plus the
relative translation, clamped componentwise and independently per axis into
the workspace box (in-range components unchanged, out-of-box components set
to the nearer bound, never rejected), and a target rotation equal to
HomePose.rotation times the relative rotation. -/
theorem C2_engaged_tick_target (cfg : Config) (cs : ControllerState)
    (rs1 rs2 : FrankaState) (s : OperatorState) (ia : M4) (rel : M4) (r : TickResult)
    (hff : s.is_first_frame = false)
    (hb : cs.right_b = false)
    (hstart : cs.right_a = true ∨ s.start_teleop = true)
    (hinit : (if cs.right_a then some cs.right_affine else s.init_affine) = some ia)
    (hbox : ∀ i, cfg.ROBOT_WORKSPACE_MIN i ≤ cfg.ROBOT_WORKSPACE_MAX i)
    (hrel : rel = get_relative_affine cfg.H_R_V cfg.H_R_V_star ia cs.right_affine)
    (hr : r = tick cfg (some cs) rs1 rs2 s) :
    r.err = none ∧
    ∃ a, r.sent = [a] ∧
      a.quat = cfg.mat2quat (s.home_rot * topLeft33 rel) ∧
      (∀ i, a.pos i = min (cfg.ROBOT_WORKSPACE_MAX i)
          (max (cfg.ROBOT_WORKSPACE_MIN i) (s.home_pos i + topRight3 rel i))) ∧
      (∀ i,
        (cfg.ROBOT_WORKSPACE_MIN i ≤ s.home_pos i + topRight3 rel i →
         s.home_pos i + topRight3 rel i ≤ cfg.ROBOT_WORKSPACE_MAX i →
         a.pos i = s.home_pos i + topRight3 rel i) ∧
        (s.home_pos i + topRight3 rel i < cfg.ROBOT_WORKSPACE_MIN i →
         a.pos i = cfg.ROBOT_WORKSPACE_MIN i) ∧
        (cfg.ROBOT_WORKSPACE_MAX i < s.home_pos i + topRight3 rel i →
         a.pos i = cfg.ROBOT_WORKSPACE_MAX i)) := by
  subst hr hrel
  have key : tick cfg (some cs) rs1 rs2 s =
      ⟨none, gripper_update cs (engage_update cs s),
        [engaged_action cfg
          (get_relative_affine cfg.H_R_V cfg.H_R_V_star ia cs.right_affine)
          (gripper_update cs (engage_update cs s))]⟩ := by
    cases hra : cs.right_a with
    | true =>
      rw [if_pos hra] at hinit
      obtain rfl : cs.right_affine = ia := Option.some_injective _ hinit
      simp [tick, first_frame_update, engage_update, disengage_update, hff, hb, hra,
        gripper_update_start_teleop]
    | false =>
      have hst : s.start_teleop = true := by
        rcases hstart with h | h
        · rw [hra] at h; exact absurd h (by simp)
        · exact h
      rw [if_neg (by simp [hra])] at hinit
      simp [tick, first_frame_update, engage_update, disengage_update, hff, hb, hra, hst,
        hinit, gripper_update_start_teleop]
  rw [key]
  have hpos : ∀ i,
      (engaged_action cfg (get_relative_affine cfg.H_R_V cfg.H_R_V_star ia cs.right_affine)
        (gripper_update cs (engage_update cs s))).pos i
      = min (cfg.ROBOT_WORKSPACE_MAX i) (max (cfg.ROBOT_WORKSPACE_MIN i)
          (s.home_pos i
            + topRight3 (get_relative_affine cfg.H_R_V cfg.H_R_V_star ia cs.right_affine) i)) := by
    intro i
    simp [engaged_action, np_clip, gripper_update_home_pos, engage_update_home_pos]
  refine ⟨rfl, engaged_action cfg _ _, rfl, ?_, hpos, ?_⟩
  · simp [engaged_action, gripper_update_home_rot, engage_update_home_rot, hff]
  · intro i
    have h := np_clip_spec (cfg.ROBOT_WORKSPACE_MIN i) (cfg.ROBOT_WORKSPACE_MAX i)
      (s.home_pos i + topRight3 (get_relative_affine cfg.H_R_V cfg.H_R_V_star ia cs.right_affine) i)
      (hbox i)
    exact ⟨fun h1 h2 => (hpos i).trans (h.1 h1 h2),
           fun h1 => (hpos i).trans (h.2.1 h1),
           fun h1 => (hpos i).trans (h.2.2 h1)⟩

/-- Concrete configuration used by the witness theorems: identity alignment
matrices, unit workspace box, and trivial conversion functions (the theorems
hold for every Config, so any concrete instance witnesses them). -/
def cfg0 : Config :=
  { H_R_V := 1, H_R_V_star := 1,
    ROBOT_WORKSPACE_MIN := fun _ => 0, ROBOT_WORKSPACE_MAX := fun _ => 1,
    quat2mat := fun _ => 1, mat2quat := fun _ => fun _ => 0 }

/-- Concrete robot state for witnesses. -/
def rs0 : FrankaState := { pos := fun _ => 0, quat := fun _ => 0 }

/-- Concrete homed-idle operator state for witnesses. -/
def s_home : OperatorState :=
  { is_first_frame := false, gripper_state := Gripper.GRIPPER_OPEN,
    start_teleop := false, init_affine := none, home_rot := 1, home_pos := fun _ => 0 }

/-- Concrete engage-tick controller sample for witnesses. -/
def cs_engage : ControllerState :=
  { right_a := true, right_b := false, right_affine := 1,
    right_index_trigger := 0, right_hand_trigger := 0 }

/-- Relative affine of the C2 witness tick. -/
def rel0 : M4 := get_relative_affine cfg0.H_R_V cfg0.H_R_V_star 1 cs_engage.right_affine

/-- Result of the C2 witness tick. -/
def r0 : TickResult := tick cfg0 (some cs_engage) rs0 rs0 s_home

theorem C2_witness :
    (s_home.is_first_frame = false
      ∧ cs_engage.right_b = false
      ∧ (cs_engage.right_a = true ∨ s_home.start_teleop = true)
      ∧ (if cs_engage.right_a then some cs_engage.right_affine else s_home.init_affine) = some 1
      ∧ (∀ i, cfg0.ROBOT_WORKSPACE_MIN i ≤ cfg0.ROBOT_WORKSPACE_MAX i))
    ∧ (r0.err = none ∧
       ∃ a, r0.sent = [a] ∧
         a.quat = cfg0.mat2quat (s_home.home_rot * topLeft33 rel0) ∧
         (∀ i, a.pos i = min (cfg0.ROBOT_WORKSPACE_MAX i)
             (max (cfg0.ROBOT_WORKSPACE_MIN i) (s_home.home_pos i + topRight3 rel0 i))) ∧
         (∀ i,
           (cfg0.ROBOT_WORKSPACE_MIN i ≤ s_home.home_pos i + topRight3 rel0 i →
            s_home.home_pos i + topRight3 rel0 i ≤ cfg0.ROBOT_WORKSPACE_MAX i →
            a.pos i = s_home.home_pos i + topRight3 rel0 i) ∧
           (s_home.home_pos i + topRight3 rel0 i < cfg0.ROBOT_WORKSPACE_MIN i →
            a.pos i = cfg0.ROBOT_WORKSPACE_MIN i) ∧
           (cfg0.ROBOT_WORKSPACE_MAX i < s_home.home_pos i + topRight3 rel0 i →
            a.pos i = cfg0.ROBOT_WORKSPACE_MAX i))) :=
  ⟨⟨rfl, rfl, Or.inl rfl, rfl, fun i => by norm_num [cfg0]⟩,
   C2_engaged_tick_target cfg0 cs_engage rs0 rs0 s_home 1 rel0 r0
     rfl rfl (Or.inl rfl) rfl (fun i => by norm_num [cfg0]) rfl rfl⟩

theorem first_frame_update_start_teleop (cfg : Config) (rs : FrankaState) (s : OperatorState) :
    (first_frame_update cfg rs s).start_teleop = s.start_teleop := by
  unfold first_frame_update
  split <;> rfl

theorem first_frame_update_init_affine (cfg : Config) (rs : FrankaState) (s : OperatorState) :
    (first_frame_update cfg rs s).init_affine = s.init_affine := by
  unfold first_frame_update
  split <;> rfl

theorem gripper_update_close (cs : ControllerState) (s : OperatorState)
    (h : (1 : ℚ)/2 < cs.right_index_trigger) :
    (gripper_update cs s).gripper_state = Gripper.GRIPPER_CLOSE := by
  unfold gripper_update gripper_request
  rw [if_pos h]
  split
  · rename_i g heq
    obtain rfl : Gripper.GRIPPER_CLOSE = g := Option.some_injective _ heq
    split
    · rfl
    · rename_i hne
      exact (not_ne_iff.mp hne).symm
  · rename_i heq
    exact absurd heq (by simp)

theorem gripper_update_open (cs : ControllerState) (s : OperatorState)
    (h1 : ¬ (1 : ℚ)/2 < cs.right_index_trigger) (h2 : (1 : ℚ)/2 < cs.right_hand_trigger) :
    (gripper_update cs s).gripper_state = Gripper.GRIPPER_OPEN := by
  unfold gripper_update gripper_request
  rw [if_neg h1, if_pos h2]
  split
  · rename_i g heq
    obtain rfl : Gripper.GRIPPER_OPEN = g := Option.some_injective _ heq
    split
    · rfl
    · rename_i hne
      exact (not_ne_iff.mp hne).symm
  · rename_i heq
    exact absurd heq (by simp)

theorem gripper_update_none (cs : ControllerState) (s : OperatorState)
    (h1 : ¬ (1 : ℚ)/2 < cs.right_index_trigger) (h2 : ¬ (1 : ℚ)/2 < cs.right_hand_trigger) :
    gripper_update cs s = s := by
  unfold gripper_update gripper_request
  rw [if_neg h1, if_neg h2]

/-- Shape of a successful non-None tick: assuming the session invariant that
an engaged state has a captured init_affine, a tick raises nothing, its state
is the flag updates followed by the gripper update, and it sends the handshake
reset action (first frame only) followed by exactly one target action. -/
theorem tick_shape (cfg : Config) (cs : ControllerState) (rs1 rs2 : FrankaState)
    (s : OperatorState) (hinv : s.start_teleop = true → s.init_affine ≠ none) :
    ∃ R : M4,
      tick cfg (some cs) rs1 rs2 s =
        ⟨none,
         gripper_update cs (disengage_update cfg rs2 cs (engage_update cs (first_frame_update cfg rs1 s))),
         (if s.is_first_frame then [reset_action] else [])
           ++ [if (gripper_update cs (disengage_update cfg rs2 cs
                    (engage_update cs (first_frame_update cfg rs1 s)))).start_teleop
               then engaged_action cfg R (gripper_update cs (disengage_update cfg rs2 cs
                      (engage_update cs (first_frame_update cfg rs1 s))))
               else idle_action cfg (gripper_update cs (disengage_update cfg rs2 cs
                      (engage_update cs (first_frame_update cfg rs1 s))))]⟩ := by
  cases hrb : cs.right_b with
  | true =>
    refine ⟨idle_relative_affine, ?_⟩
    simp [tick, disengage_update, disengaged_state, hrb, gripper_update_start_teleop]
  | false =>
    cases hra : cs.right_a with
    | true =>
      refine ⟨get_relative_affine cfg.H_R_V cfg.H_R_V_star cs.right_affine cs.right_affine, ?_⟩
      simp [tick, disengage_update, engage_update, hrb, hra, gripper_update_start_teleop]
    | false =>
      cases hst : s.start_teleop with
      | false =>
        refine ⟨idle_relative_affine, ?_⟩
        simp [tick, disengage_update, engage_update, hrb, hra, gripper_update_start_teleop,
          first_frame_update_start_teleop, hst]
      | true =>
        obtain ⟨ia, hia⟩ := Option.ne_none_iff_exists'.mp (hinv hst)
        refine ⟨get_relative_affine cfg.H_R_V cfg.H_R_V_star ia cs.right_affine, ?_⟩
        simp [tick, disengage_update, engage_update, hrb, hra, gripper_update_start_teleop,
          first_frame_update_start_teleop, first_frame_update_init_affine, hst, hia]

/-- A tick whose sample holds both triggers at or below 0.5 never changes the
gripper state, through every branch (first frame, engage/disengage, error). -/
theorem tick_gripper_low (cfg : Config) (c : ControllerState) (rs1 rs2 : FrankaState)
    (s : OperatorState)
    (h1 : c.right_index_trigger ≤ 1/2) (h2 : c.right_hand_trigger ≤ 1/2) :
    (tick cfg (some c) rs1 rs2 s).state.gripper_state = s.gripper_state := by
  unfold tick
  dsimp only
  split
  · rw [disengage_update_gripper, engage_update_gripper, first_frame_update_gripper]
  · rw [gripper_update_none _ _ (not_lt.mpr h1) (not_lt.mpr h2),
      disengage_update_gripper, engage_update_gripper, first_frame_update_gripper]

theorem ticks_keep_gripper (cfg : Config) (rs1 rs2 : FrankaState) :
    ∀ css : List ControllerState,
      (∀ c ∈ css, c.right_index_trigger ≤ 1/2 ∧ c.right_hand_trigger ≤ 1/2) →
      ∀ s : OperatorState,
        (css.foldl (fun st c => (tick cfg (some c) rs1 rs2 st).state) s).gripper_state
          = s.gripper_state := by
  intro css
  induction css with
  | nil => intro _ s; rfl
  | cons c cs' ih =>
    intro hlow s
    have hc := hlow c (List.mem_cons_self c cs')
    rw [List.foldl_cons,
      ih (fun c' hc' => hlow c' (List.mem_cons_of_mem c hc'))]
    exact tick_gripper_low cfg c rs1 rs2 s hc.1 hc.2

/-- C3: on every tick (under the session invariant that an engaged state has a
captured init_affine): index trigger above 0.5 yields GripperState CLOSED;
otherwise hand trigger above 0.5 yields OPEN; otherwise GripperState is
unchanged; every non-reset action sent carries the (updated) current
GripperState; and across any sequence of ticks whose samples keep both
triggers at or below 0.5, GripperState never changes. -/
theorem C3_gripper_hysteresis (cfg : Config) (cs : ControllerState)
    (rs1 rs2 : FrankaState) (s : OperatorState) (r : TickResult)
    (hinv : s.start_teleop = true → s.init_affine ≠ none)
    (hr : r = tick cfg (some cs) rs1 rs2 s) :
    ((1 : ℚ)/2 < cs.right_index_trigger → r.state.gripper_state = Gripper.GRIPPER_CLOSE) ∧
    (cs.right_index_trigger ≤ 1/2 → (1 : ℚ)/2 < cs.right_hand_trigger →
      r.state.gripper_state = Gripper.GRIPPER_OPEN) ∧
    (cs.right_index_trigger ≤ 1/2 → cs.right_hand_trigger ≤ 1/2 →
      r.state.gripper_state = s.gripper_state) ∧
    (∀ a ∈ r.sent, a.reset = false → a.gripper = r.state.gripper_state) ∧
    (∀ css : List ControllerState,
      (∀ c ∈ css, c.right_index_trigger ≤ 1/2 ∧ c.right_hand_trigger ≤ 1/2) →
      (css.foldl (fun st c => (tick cfg (some c) rs1 rs2 st).state) s).gripper_state
        = s.gripper_state) := by
  subst hr
  obtain ⟨R, hR⟩ := tick_shape cfg cs rs1 rs2 s hinv
  have hgrip : (tick cfg (some cs) rs1 rs2 s).state.gripper_state
      = (gripper_update cs (disengage_update cfg rs2 cs
          (engage_update cs (first_frame_update cfg rs1 s)))).gripper_state := by
    rw [hR]
  have hbase : (disengage_update cfg rs2 cs
      (engage_update cs (first_frame_update cfg rs1 s))).gripper_state = s.gripper_state := by
    rw [disengage_update_gripper, engage_update_gripper, first_frame_update_gripper]
  refine ⟨?_, ?_, ?_, ?_, ?_⟩
  · intro h
    rw [hgrip, gripper_update_close _ _ h]
  · intro h1 h2
    rw [hgrip, gripper_update_open _ _ (not_lt.mpr h1) h2]
  · intro h1 h2
    rw [hgrip, gripper_update_none _ _ (not_lt.mpr h1) (not_lt.mpr h2), hbase]
  · intro a ha hreset
    rw [hR] at ha
    rw [hgrip]
    rcases List.mem_append.mp ha with h | h
    · exfalso
      cases hf : s.is_first_frame with
      | false =>
        rw [hf] at h
        simp at h
      | true =>
        rw [hf] at h
        rw [List.mem_singleton.mp h] at hreset
        exact absurd hreset (by simp [reset_action])
    · rw [List.mem_singleton.mp h]
      split
      · rfl
      · rfl
  · intro css hlow
    exact ticks_keep_gripper cfg rs1 rs2 css hlow s

theorem first_frame_update_is_first_frame (cfg : Config) (rs : FrankaState) (s : OperatorState) :
    (first_frame_update cfg rs s).is_first_frame = false := by
  unfold first_frame_update
  split
  · rfl
  · rename_i h
    simpa using h

theorem engage_update_is_first_frame (cs : ControllerState) (s : OperatorState) :
    (engage_update cs s).is_first_frame = s.is_first_frame := by
  unfold engage_update
  split <;> rfl

theorem disengage_update_is_first_frame (cfg : Config) (rs : FrankaState) (cs : ControllerState)
    (s : OperatorState) :
    (disengage_update cfg rs cs s).is_first_frame = s.is_first_frame := by
  unfold disengage_update
  split <;> rfl

theorem gripper_update_is_first_frame' (cs : ControllerState) (s : OperatorState) :
    (gripper_update cs s).is_first_frame = s.is_first_frame := by
  unfold gripper_update
  split
  · split <;> rfl
  · rfl

/-- After any tick with a sample, the first-frame handshake has run. -/
theorem tick_not_first_after (cfg : Config) (cs : ControllerState) (rs1 rs2 : FrankaState)
    (s : OperatorState) :
    (tick cfg (some cs) rs1 rs2 s).state.is_first_frame = false := by
  unfold tick
  dsimp only
  split
  · rw [disengage_update_is_first_frame, engage_update_is_first_frame,
      first_frame_update_is_first_frame]
  · rw [gripper_update_is_first_frame', disengage_update_is_first_frame,
      engage_update_is_first_frame, first_frame_update_is_first_frame]

/-- C8: from HOMED_IDLE, the tick before engagement commands exactly the
current HomePose, and after an engage tick followed by a disengage tick (with
the controller pose unchanged in between) the commanded target pose equals the
recaptured HomePose: the round-trip commands no net motion. -/
theorem C8_engage_disengage_round_trip (cfg : Config) (cs0 cs1 cs2 : ControllerState)
    (rs rsd : FrankaState) (s : OperatorState)
    (hff : s.is_first_frame = false) (hidle : s.start_teleop = false)
    (h0a : cs0.right_a = false) (h0b : cs0.right_b = false)
    (h1a : cs1.right_a = true) (h1b : cs1.right_b = false)
    (h2a : cs2.right_a = false) (h2b : cs2.right_b = true)
    (hpose : cs2.right_affine = cs1.right_affine) :
    (∃ a0, (tick cfg (some cs0) rs rsd s).sent = [a0]
       ∧ a0.pos = s.home_pos ∧ a0.quat = cfg.mat2quat s.home_rot) ∧
    (∃ a2, (tick cfg (some cs2) rs rsd
         (tick cfg (some cs1) rs rsd (tick cfg (some cs0) rs rsd s).state).state).sent = [a2]
       ∧ a2.pos = rsd.pos ∧ a2.quat = cfg.mat2quat (cfg.quat2mat rsd.quat)
       ∧ (tick cfg (some cs2) rs rsd
            (tick cfg (some cs1) rs rsd
              (tick cfg (some cs0) rs rsd s).state).state).state.home_pos = rsd.pos
       ∧ (tick cfg (some cs2) rs rsd
            (tick cfg (some cs1) rs rsd
              (tick cfg (some cs0) rs rsd s).state).state).state.home_rot = cfg.quat2mat rsd.quat
       ∧ (tick cfg (some cs2) rs rsd
            (tick cfg (some cs1) rs rsd
              (tick cfg (some cs0) rs rsd s).state).state).state.start_teleop = false
       ∧ (tick cfg (some cs2) rs rsd
            (tick cfg (some cs1) rs rsd
              (tick cfg (some cs0) rs rsd s).state).state).state.init_affine = none) := by
  have key0 : tick cfg (some cs0) rs rsd s
      = ⟨none, gripper_update cs0 s, [idle_action cfg (gripper_update cs0 s)]⟩ := by
    simp [tick, first_frame_update, engage_update, disengage_update, hff, h0a, h0b, hidle,
      gripper_update_start_teleop]
  constructor
  · refine ⟨idle_action cfg (gripper_update cs0 s), ?_, ?_, ?_⟩
    · rw [key0]
    · simp [idle_action, gripper_update_home_pos]
    · simp [idle_action, gripper_update_home_rot]
  · set s2 := (tick cfg (some cs1) rs rsd (tick cfg (some cs0) rs rsd s).state).state with hs2
    have hf2 : s2.is_first_frame = false := by
      rw [hs2]
      exact tick_not_first_after cfg cs1 rs rsd _
    have key2 : tick cfg (some cs2) rs rsd s2
        = ⟨none,
           gripper_update cs2 (disengaged_state cfg rsd s2),
           [idle_action cfg (gripper_update cs2 (disengaged_state cfg rsd s2))]⟩ := by
      simp [tick, first_frame_update, engage_update, disengage_update, disengaged_state,
        hf2, h2a, h2b, gripper_update_start_teleop]
    rw [key2]
    refine ⟨_, rfl, ?_, ?_, ?_, ?_, ?_, ?_⟩
    · simp [idle_action, gripper_update_home_pos, disengaged_state]
    · simp [idle_action, gripper_update_home_rot, disengaged_state]
    · simp [gripper_update_home_pos, disengaged_state]
    · simp [gripper_update_home_rot, disengaged_state]
    · simp [gripper_update_start_teleop, disengaged_state]
    · simp [gripper_update_init_affine, disengaged_state]

/-- C10: on a tick whose sample sets both the engage and the disengage flag,
disengage wins: the tick ends with teleoperation off, init_affine cleared,
HomePose recaptured from the fresh robot state, and the (last) action sent
commanding exactly that recaptured HomePose. -/
theorem C10_disengage_precedence (cfg : Config) (cs : ControllerState)
    (rs1 rsd : FrankaState) (s : OperatorState) (r : TickResult)
    (ha : cs.right_a = true) (hb : cs.right_b = true)
    (hr : r = tick cfg (some cs) rs1 rsd s) :
    r.err = none ∧ r.state.start_teleop = false ∧ r.state.init_affine = none ∧
    r.state.home_pos = rsd.pos ∧ r.state.home_rot = cfg.quat2mat rsd.quat ∧
    ∃ a, r.sent.getLast? = some a ∧ a.pos = rsd.pos
      ∧ a.quat = cfg.mat2quat (cfg.quat2mat rsd.quat) ∧ a.reset = false := by
  subst hr
  have key : tick cfg (some cs) rs1 rsd s
      = ⟨none,
         gripper_update cs
           (disengaged_state cfg rsd (engage_update cs (first_frame_update cfg rs1 s))),
         (if s.is_first_frame then [reset_action] else [])
           ++ [idle_action cfg (gripper_update cs
               (disengaged_state cfg rsd (engage_update cs (first_frame_update cfg rs1 s))))]⟩ := by
    simp [tick, disengage_update, disengaged_state, hb, gripper_update_start_teleop]
  rw [key]
  refine ⟨rfl, ?_, ?_, ?_, ?_, ?_⟩
  · simp [gripper_update_start_teleop, disengaged_state]
  · simp [gripper_update_init_affine, disengaged_state]
  · simp [gripper_update_home_pos, disengaged_state]
  · simp [gripper_update_home_rot, disengaged_state]
  · refine ⟨_, List.getLast?_concat _, ?_, ?_, rfl⟩
    · simp [idle_action, gripper_update_home_pos, disengaged_state]
    · simp [idle_action, gripper_update_home_rot, disengaged_state]

/-- C9 amended: a post-handshake tick handed no controller sample has no
explicit skip path: it raises AttributeError at the first access to the
sample's fields, sending no action and leaving the operator state unchanged
up to the raised exception.  (Per §6 the subscriber blocks, so in the running
system such a tick stalls rather than observing None.) -/
theorem C9_missing_sample_raises (cfg : Config) (rs1 rs2 : FrankaState) (s : OperatorState)
    (hff : s.is_first_frame = false) :
    tick cfg none rs1 rs2 s = ⟨some PyErr.attributeError, s, []⟩ := by
  simp [tick, first_frame_update, hff]

/-- C9 counterexample: a concrete post-handshake tick with no controller
sample raises an exception, refuting the claim that such a tick skips its
action explicitly with no exception raised. -/
theorem C9_counterexample : (tick cfg0 none rs0 rs0 s_home).err ≠ none := by
  simp [tick]

/-- Controller sample with no flags and low triggers, for witnesses. -/
def cs_idle : ControllerState :=
  { right_a := false, right_b := false, right_affine := 1,
    right_index_trigger := 0, right_hand_trigger := 0 }

/-- Disengage-tick controller sample for witnesses. -/
def cs_disengage : ControllerState :=
  { right_a := false, right_b := true, right_affine := 1,
    right_index_trigger := 0, right_hand_trigger := 0 }

/-- Controller sample with both flags set, for the C10 witness. -/
def cs_both : ControllerState :=
  { right_a := true, right_b := true, right_affine := 1,
    right_index_trigger := 0, right_hand_trigger := 0 }

/-- Result of the C10 witness tick. -/
def r_both : TickResult := tick cfg0 (some cs_both) rs0 rs0 s_home

theorem C3_witness :
    (s_home.start_teleop = true → s_home.init_affine ≠ none)
    ∧ (((1 : ℚ)/2 < cs_engage.right_index_trigger →
          r0.state.gripper_state = Gripper.GRIPPER_CLOSE) ∧
       (cs_engage.right_index_trigger ≤ 1/2 → (1 : ℚ)/2 < cs_engage.right_hand_trigger →
          r0.state.gripper_state = Gripper.GRIPPER_OPEN) ∧
       (cs_engage.right_index_trigger ≤ 1/2 → cs_engage.right_hand_trigger ≤ 1/2 →
          r0.state.gripper_state = s_home.gripper_state) ∧
       (∀ a ∈ r0.sent, a.reset = false → a.gripper = r0.state.gripper_state) ∧
       (∀ css : List ControllerState,
         (∀ c ∈ css, c.right_index_trigger ≤ 1/2 ∧ c.right_hand_trigger ≤ 1/2) →
         (css.foldl (fun st c => (tick cfg0 (some c) rs0 rs0 st).state) s_home).gripper_state
           = s_home.gripper_state)) :=
  ⟨fun h => by simp [s_home] at h,
   C3_gripper_hysteresis cfg0 cs_engage rs0 rs0 s_home r0
     (fun h => by simp [s_home] at h) rfl⟩

theorem C8_witness :
    (s_home.is_first_frame = false ∧ s_home.start_teleop = false
      ∧ cs_idle.right_a = false ∧ cs_idle.right_b = false
      ∧ cs_engage.right_a = true ∧ cs_engage.right_b = false
      ∧ cs_disengage.right_a = false ∧ cs_disengage.right_b = true
      ∧ cs_disengage.right_affine = cs_engage.right_affine)
    ∧ ((∃ a0, (tick cfg0 (some cs_idle) rs0 rs0 s_home).sent = [a0]
         ∧ a0.pos = s_home.home_pos ∧ a0.quat = cfg0.mat2quat s_home.home_rot) ∧
       (∃ a2, (tick cfg0 (some cs_disengage) rs0 rs0
            (tick cfg0 (some cs_engage) rs0 rs0
              (tick cfg0 (some cs_idle) rs0 rs0 s_home).state).state).sent = [a2]
         ∧ a2.pos = rs0.pos ∧ a2.quat = cfg0.mat2quat (cfg0.quat2mat rs0.quat)
         ∧ (tick cfg0 (some cs_disengage) rs0 rs0
              (tick cfg0 (some cs_engage) rs0 rs0
                (tick cfg0 (some cs_idle) rs0 rs0 s_home).state).state).state.home_pos = rs0.pos
         ∧ (tick cfg0 (some cs_disengage) rs0 rs0
              (tick cfg0 (some cs_engage) rs0 rs0
                (tick cfg0 (some cs_idle) rs0 rs0 s_home).state).state).state.home_rot
             = cfg0.quat2mat rs0.quat
         ∧ (tick cfg0 (some cs_disengage) rs0 rs0
              (tick cfg0 (some cs_engage) rs0 rs0
                (tick cfg0 (some cs_idle) rs0 rs0 s_home).state).state).state.start_teleop = false
         ∧ (tick cfg0 (some cs_disengage) rs0 rs0
              (tick cfg0 (some cs_engage) rs0 rs0
                (tick cfg0 (some cs_idle) rs0 rs0 s_home).state).state).state.init_affine = none)) :=
  ⟨⟨rfl, rfl, rfl, rfl, rfl, rfl, rfl, rfl, rfl⟩,
   C8_engage_disengage_round_trip cfg0 cs_idle cs_engage cs_disengage rs0 rs0 s_home
     rfl rfl rfl rfl rfl rfl rfl rfl rfl⟩

theorem C9_witness :
    s_home.is_first_frame = false
    ∧ tick cfg0 none rs0 rs0 s_home = ⟨some PyErr.attributeError, s_home, []⟩ :=
  ⟨rfl, C9_missing_sample_raises cfg0 rs0 rs0 s_home rfl⟩

theorem C10_witness :
    (cs_both.right_a = true ∧ cs_both.right_b = true)
    ∧ (r_both.err = none ∧ r_both.state.start_teleop = false
       ∧ r_both.state.init_affine = none
       ∧ r_both.state.home_pos = rs0.pos ∧ r_both.state.home_rot = cfg0.quat2mat rs0.quat
       ∧ ∃ a, r_both.sent.getLast? = some a ∧ a.pos = rs0.pos
           ∧ a.quat = cfg0.mat2quat (cfg0.quat2mat rs0.quat) ∧ a.reset = false) :=
  ⟨⟨rfl, rfl⟩,
   C10_disengage_precedence cfg0 cs_both rs0 rs0 s_home r_both rfl rfl rfl⟩

/-- Static per-instance attributes of FrankaEnv relevant to observation
assembly (franka_env.py:22-83).  n_sensors and sensor_dim (lines 72-73) are
assigned only when use_robot is true and the sensor type is "reskin";
otherwise they stay unset, embedded as none (reading them raises
AttributeError, as Python does for a missing attribute). -/
structure FrankaEnv where
  width : ℕ
  height : ℕ
  n_channels : ℕ
  feature_dim : ℕ
  use_robot : Bool
  sensor_type : Option String
  num_cameras : ℕ
  n_sensors : Option ℕ
  sensor_dim : Option ℕ

/-- FrankaEnv.__init__ (franka_env.py:23-83): width/height from the arguments,
n_channels = 3, feature_dim = 8, one camera subscriber per index; in hardware
mode with the reskin sensor, n_sensors = 2 and sensor_dim = 15.  (In that mode
the constructor also makes an initial baselining call to _get_reskin_state,
line 81; that call's behaviour is embedded separately by get_reskin_state.) -/
def FrankaEnv.init (num_cameras width height : ℕ) (use_robot : Bool)
    (sensor_type : Option String) : FrankaEnv :=
  { width := width, height := height, n_channels := 3, feature_dim := 8,
    use_robot := use_robot, sensor_type := sensor_type, num_cameras := num_cameras,
    n_sensors := if use_robot && (sensor_type == some "reskin") then some 2 else none,
    sensor_dim := if use_robot && (sensor_type == some "reskin") then some 15 else none }

/-- Channel names and array shapes of the reskin channels produced by
_get_reskin_state (franka_env.py:216-224): per sensor index, a value slice and
a diffs slice of length sensor_dim.  Reading the unset n_sensors or sensor_dim
attribute raises AttributeError. -/
def reskin_state_shapes (e : FrankaEnv) : Except PyErr (List (String × List ℕ)) :=
  match e.n_sensors, e.sensor_dim with
  | some ns, some sd =>
      Except.ok ((List.range ns).flatMap fun sidx =>
        [("sensor" ++ toString sidx, [sd]),
         ("sensor" ++ toString sidx ++ "_diffs", [sd])])
  | _, _ => Except.error PyErr.attributeError

/-- Channel names and shapes of the observation dict built by FrankaEnv.step
(franka_env.py:121-137): features and proprioceptive are pos (3) ++ quat (4)
++ gripper (1); then the reskin channels (the try block catches only KeyError,
so an AttributeError propagates; the degraded KeyError path is not modelled —
the sensor source is assumed well-formed per spec §6); then one resized image
of shape (height, width, 3) per camera, keyed pixels0, pixels1, ... -/
def step_obs_shapes (e : FrankaEnv) : Except PyErr (List (String × List ℕ)) :=
  match (if e.sensor_type == some "reskin" then reskin_state_shapes e else Except.ok []) with
  | Except.error err => Except.error err
  | Except.ok sens =>
      Except.ok ([("features", [3 + 4 + 1]), ("proprioceptive", [3 + 4 + 1])]
        ++ sens
        ++ (List.range e.num_cameras).map fun i =>
            ("pixels" ++ toString i, [e.height, e.width, 3]))

/-- Channel names and shapes of the observation dict built by the hardware
branch of FrankaEnv.reset (franka_env.py:167-183), textually the same
assembly as step. -/
def reset_obs_shapes (e : FrankaEnv) : Except PyErr (List (String × List ℕ)) :=
  match (if e.sensor_type == some "reskin" then reskin_state_shapes e else Except.ok []) with
  | Except.error err => Except.error err
  | Except.ok sens =>
      Except.ok ([("features", [3 + 4 + 1]), ("proprioceptive", [3 + 4 + 1])]
        ++ sens
        ++ (List.range e.num_cameras).map fun i =>
            ("pixels" ++ toString i, [e.height, e.width, 3]))

/-- Channel names and shapes of the observation dict built by the no-hardware
branch of FrankaEnv.reset (franka_env.py:187-198): zero-filled features and
proprioceptive of length feature_dim, then a loop over range(self.n_sensors)
reading self.sensor_dim — attributes never assigned when use_robot is false,
so the read raises AttributeError — then a single channel keyed "pixels" of
shape (height, width, n_channels). -/
def reset_no_robot_obs_shapes (e : FrankaEnv) : Except PyErr (List (String × List ℕ)) :=
  match e.n_sensors, e.sensor_dim with
  | some ns, some sd =>
      Except.ok ([("features", [e.feature_dim]), ("proprioceptive", [e.feature_dim])]
        ++ (List.range ns).flatMap (fun sidx =>
            [("sensor" ++ toString sidx, [sd]),
             ("sensor" ++ toString sidx ++ "_diffs", [sd])])
        ++ [("pixels", [e.height, e.width, e.n_channels])])
  | _, _ => Except.error PyErr.attributeError

/-- C4 counterexample: for the concrete configuration with one camera at
640×480 and the reskin sensor, the no-hardware reset does not return an
observation record at all — it raises AttributeError (n_sensors is assigned
only in hardware mode) — so it cannot expose the channel names and shapes the
hardware mode exposes. -/
theorem C4_counterexample :
    reset_no_robot_obs_shapes (FrankaEnv.init 1 640 480 false (some "reskin"))
      = Except.error PyErr.attributeError := rfl

/-- C4 amended: for the same configuration, the two hardware-mode record
builders (step and reset) expose identical channel names and shapes, but the
no-hardware reset raises AttributeError instead of returning a record (and
the record its code would otherwise assemble keys its image channel "pixels",
not per-camera "pixels0", "pixels1", ...). -/
theorem C4_hardware_shapes_agree_no_hardware_raises (num_cameras width height : ℕ) :
    step_obs_shapes (FrankaEnv.init num_cameras width height true (some "reskin"))
        = reset_obs_shapes (FrankaEnv.init num_cameras width height true (some "reskin"))
    ∧ reset_no_robot_obs_shapes (FrankaEnv.init num_cameras width height false (some "reskin"))
        = Except.error PyErr.attributeError
    ∧ step_obs_shapes (FrankaEnv.init 1 640 480 true (some "reskin"))
        = Except.ok [("features", [8]), ("proprioceptive", [8]),
            ("sensor0", [15]), ("sensor0_diffs", [15]),
            ("sensor1", [15]), ("sensor1_diffs", [15]),
            ("pixels0", [480, 640, 3])] :=
  ⟨rfl, rfl, rfl⟩

/-- Mutable tactile state of FrankaEnv (franka_env.py:75-81, 200-225):
the running baseline, the previous post-subtraction reading (None right after
construction, line 75), and the baseline-subtraction toggle from
sensor_params. -/
structure ReskinState where
  sensor_baseline : List ℚ
  sensor_prev_state : Option (List ℚ)
  subtract_sensor_baseline : Bool

/-- Componentwise subtraction of two numpy vectors of equal length. -/
def listSub (a b : List ℚ) : List ℚ := List.zipWith (fun x y => x - y) a b

/-- np.mean(meas, axis=0): componentwise sum divided by the number of rows. -/
def listMean (meas : List (List ℚ)) : List ℚ :=
  match meas with
  | [] => []
  | m :: ms =>
      (ms.foldl (fun acc l => List.zipWith (fun x y => x + y) acc l) m).map
        (fun x => x / (meas.length : ℚ))

/-- Embedding of FrankaEnv._get_reskin_state (franka_env.py:200-225).  raw is
the sensor reading fetched at line 201-202; baseline_meas are the fresh
readings collected by the loop at lines 204-209 when update_baseline is set
(the loop collects exactly 5 when starting empty); the new baseline is their
mean.  With subtraction enabled, sensor_values becomes raw minus the baseline.
sensor_diff = sensor_values - sensor_prev_state (line 214) is a numpy array
minus the previous value: when sensor_prev_state is None — as it is at the
initial baselining call from the constructor — Python raises TypeError.  The
record slices sensor_values and sensor_diff into n_sensors runs of length
sensor_dim, keyed sensor{i} and sensor{i}_diffs. -/
def get_reskin_state (n_sensors sensor_dim : ℕ) (update_baseline : Bool)
    (raw : List ℚ) (baseline_meas : List (List ℚ)) (st : ReskinState) :
    Except PyErr (List (String × List ℚ) × ReskinState) :=
  let st1 := if update_baseline then
      { st with sensor_baseline := listMean baseline_meas } else st
  let sensor_values := if st1.subtract_sensor_baseline
      then listSub raw st1.sensor_baseline else raw
  match st1.sensor_prev_state with
  | none => Except.error PyErr.typeError
  | some prev =>
      let sensor_diff := listSub sensor_values prev
      let reskin_record : List (String × List ℚ) :=
        (List.range n_sensors).flatMap fun sidx =>
          [("sensor" ++ toString sidx,
            (sensor_values.drop (sidx * sensor_dim)).take sensor_dim),
           ("sensor" ++ toString sidx ++ "_diffs",
            (sensor_diff.drop (sidx * sensor_dim)).take sensor_dim)]
      Except.ok (reskin_record, { st1 with sensor_prev_state := some sensor_values })

theorem zipWith_replicate_same (f : ℚ → ℚ → ℚ) (n : ℕ) (a b : ℚ) :
    List.zipWith f (List.replicate n a) (List.replicate n b) = List.replicate n (f a b) := by
  induction n with
  | zero => rfl
  | succ k ih => simp [List.replicate_succ, ih]

theorem listSub_replicate (n : ℕ) (a b : ℚ) :
    listSub (List.replicate n a) (List.replicate n b) = List.replicate n (a - b) :=
  zipWith_replicate_same _ n a b

theorem listMean_replicate_five (m : ℕ) (a : ℚ) :
    listMean (List.replicate 5 (List.replicate m a)) = List.replicate m a := by
  unfold listMean
  simp [List.replicate_succ, zipWith_replicate_same]
  right
  ring

/-- Generic shape of a _get_reskin_state call whose previous state is present
and whose baseline subtraction is enabled: the absolute values are raw minus
the (possibly freshly averaged) baseline, and the diffs subtract the stored
previous reading. -/
theorem get_reskin_ok (update_baseline : Bool) (raw prev baseline0 : List ℚ)
    (baseline_meas : List (List ℚ)) :
    get_reskin_state 2 15 update_baseline raw baseline_meas ⟨baseline0, some prev, true⟩
      = (let b := if update_baseline then listMean baseline_meas else baseline0
         Except.ok
          ([("sensor0", (listSub raw b).take 15),
            ("sensor0_diffs", (listSub (listSub raw b) prev).take 15),
            ("sensor1", ((listSub raw b).drop 15).take 15),
            ("sensor1_diffs", ((listSub (listSub raw b) prev).drop 15).take 15)],
           ⟨b, some (listSub raw b), true⟩)) := by
  cases update_baseline
  · rfl
  · rfl

/-- A _get_reskin_state call whose previous state is None (as right after
construction) raises TypeError. -/
theorem get_reskin_none_prev (update_baseline : Bool) (raw baseline0 : List ℚ)
    (baseline_meas : List (List ℚ)) :
    get_reskin_state 2 15 update_baseline raw baseline_meas ⟨baseline0, none, true⟩
      = Except.error PyErr.typeError := by
  cases update_baseline
  · rfl
  · rfl

/-- C5 counterexample.  First conjunct: at the initial baselining call from
the constructor the previous state is None, so the first reading raises
TypeError instead of producing a delta equal to the absolute value.  Second
conjunct: at a re-baselining call with a stale previous reading (all 7s), raw
all 3s and measured baseline rows all 1s, the absolute channels are all 2s but
the delta channels are all (2 - 7) = -5s — not equal to the absolute values,
because the prior-state memory is not treated as zero after baselining. -/
theorem C5_counterexample :
    get_reskin_state 2 15 true (List.replicate 30 (3 : ℚ))
        (List.replicate 5 (List.replicate 30 (1 : ℚ))) ⟨[], none, true⟩
      = Except.error PyErr.typeError
    ∧ get_reskin_state 2 15 true (List.replicate 30 (3 : ℚ))
        (List.replicate 5 (List.replicate 30 (1 : ℚ)))
        ⟨List.replicate 30 (1 : ℚ), some (List.replicate 30 (7 : ℚ)), true⟩
      = Except.ok
          ([("sensor0", List.replicate 15 (2 : ℚ)),
            ("sensor0_diffs", List.replicate 15 (-5 : ℚ)),
            ("sensor1", List.replicate 15 (2 : ℚ)),
            ("sensor1_diffs", List.replicate 15 (-5 : ℚ))],
           ⟨List.replicate 30 (1 : ℚ), some (List.replicate 30 (2 : ℚ)), true⟩)
    ∧ List.replicate 15 (2 : ℚ) ≠ List.replicate 15 (-5 : ℚ) := by
  refine ⟨get_reskin_none_prev true _ _ _, ?_, ?_⟩
  · rw [get_reskin_ok]
    norm_num [listSub_replicate, listMean_replicate_five, List.take_replicate,
      List.drop_replicate]
  · intro h
    have h2 := congrArg (fun l => l.getD 0 0) h
    norm_num [List.getD] at h2

/-- C5 amended: with baseline subtraction enabled, the absolute channel values
are the raw reading minus the baseline (freshly averaged when re-baselining),
but the delta channels equal the absolute values minus the stored previous
reading: the prior-state memory is not reset by a baselining event.  At the
initial baselining from the constructor the previous state is None and the
reading raises TypeError instead of returning a record. -/
theorem C5_first_reading_after_baselining (update_baseline : Bool)
    (raw prev baseline0 : List ℚ) (baseline_meas : List (List ℚ)) :
    get_reskin_state 2 15 update_baseline raw baseline_meas ⟨baseline0, some prev, true⟩
      = (let b := if update_baseline then listMean baseline_meas else baseline0
         Except.ok
          ([("sensor0", (listSub raw b).take 15),
            ("sensor0_diffs", (listSub (listSub raw b) prev).take 15),
            ("sensor1", ((listSub raw b).drop 15).take 15),
            ("sensor1_diffs", ((listSub (listSub raw b) prev).drop 15).take 15)],
           ⟨b, some (listSub raw b), true⟩))
    ∧ get_reskin_state 2 15 update_baseline raw baseline_meas ⟨baseline0, none, true⟩
      = Except.error PyErr.typeError :=
  ⟨get_reskin_ok update_baseline raw prev baseline0 baseline_meas,
   get_reskin_none_prev update_baseline raw baseline0 baseline_meas⟩

end FrankaTeach
